import Mathlib

/-!
Shallow embedding of the Linux controller core of ceviche-rs
(src/lib.rs and src/controller/linux.rs), together with theorems
settling the specification claims about it.

Strings are modelled as lists of characters (`List Char`); the helper
`chars` turns a Lean string literal into that representation.  Fallible
Rust operations are modelled with explicit outcome types; a Rust panic
(`unwrap` / `expect`) is a dedicated outcome constructor, distinct from
returning an `Err` value.
-/

namespace Ceviche

/-- Character-list view of a string literal. -/
def chars (s : String) : List Char := s.data

/-- Rust `str::contains`: `pat` occurs as a contiguous substring of `s`
(the empty pattern always matches). -/
def containsB (s pat : List Char) : Bool :=
  match s with
  | [] => pat.isEmpty
  | c :: rest => pat.isPrefixOf (c :: rest) || containsB rest pat

/-- One stripping pass driven by explicit fuel; each successful strip removes
at least one character, so fuel `s.length` reaches the fixed point that Rust
`str::trim_start_matches` computes. -/
def trimStartMatchesAux (pat : List Char) : Nat → List Char → List Char
  | 0, s => s
  | fuel + 1, s =>
    if pat ≠ [] ∧ pat.isPrefixOf s then
      trimStartMatchesAux pat fuel (s.drop pat.length)
    else s

/-- Rust `str::trim_start_matches(pat)`: repeatedly removes `pat` from the
front of the string while it is a prefix. -/
def trimStartMatches (pat s : List Char) : List Char :=
  trimStartMatchesAux pat s.length s

/-- The ASCII part of the whitespace class used by Rust `char::is_whitespace`;
the status texts handled by this controller only carry ASCII whitespace. -/
def isRustWhitespace (c : Char) : Bool :=
  c = ' ' || c = '\t' || c = '\n' || c = '\x0b' || c = '\x0c' || c = '\r'

/-- Rust `str::trim`: removes leading and trailing whitespace. -/
def trimChars (s : List Char) : List Char :=
  ((s.dropWhile isRustWhitespace).reverse.dropWhile isRustWhitespace).reverse

/-- Rust `str::parse::<u32>`: optional leading plus sign, then a nonempty
run of ASCII digits whose value fits in 32 bits; anything else is a parse
error, modelled as `none`. -/
def parseU32 (s : List Char) : Option Nat :=
  let digits := match s with
    | '+' :: rest => rest
    | _ => s
  if digits = [] then none
  else if digits.all Char.isDigit then
    let n := digits.foldl (fun acc c => acc * 10 + (c.toNat - 48)) 0
    if n < 2 ^ 32 then some n else none
  else none

/-- `ActiveState` from src/controller/linux.rs. -/
inductive ActiveState
  | Running
  | Exited
  | Waiting
  | Dead
deriving DecidableEq, Fintype

/-- `InactiveState` from src/controller/linux.rs. -/
inductive InactiveState
  | Dead
  | Exited
  | Waiting
  | Resetting
deriving DecidableEq, Fintype

/-- `ServiceState` from src/controller/linux.rs. -/
inductive ServiceState
  | Active (s : ActiveState)
  | Inactive (s : InactiveState)
deriving DecidableEq

/-- Result of the state-classification step inlined in `get_status`
(src/controller/linux.rs, lines 277-313): either a `ServiceState`, or the
error `Error::new("Invalid ActiveState : {result}")` carrying the raw text. -/
inductive ParseResult
  | ok (s : ServiceState)
  | invalid (raw : List Char)
deriving DecidableEq

/-- The state-classification step of `get_status`, verbatim from
src/controller/linux.rs lines 277-313: the branch is picked by
`result.contains("active (")`, then the first matching space-prefixed
substate marker wins; if none matches, the call fails. -/
def parse_state (result : List Char) : ParseResult :=
  if containsB result (chars "active (") then
    if containsB result (chars " (running)") then .ok (.Active .Running)
    else if containsB result (chars " (exited)") then .ok (.Active .Exited)
    else if containsB result (chars " (waiting)") then .ok (.Active .Waiting)
    else if containsB result (chars " (dead)") then .ok (.Active .Dead)
    else .invalid result
  else
    if containsB result (chars " (dead)") then .ok (.Inactive .Dead)
    else if containsB result (chars " (exited)") then .ok (.Inactive .Exited)
    else if containsB result (chars " (waiting)") then .ok (.Inactive .Waiting)
    else if containsB result (chars " (resetting)") then .ok (.Inactive .Resetting)
    else .invalid result

/-- Fate of one `Command::output()` invocation, supplied as the environment
of the command executor: the spawn itself can fail (`output()` returns an io
error), the child can exit normally with an exit code and captured streams,
or the child can be killed by a signal, in which case `status.code()` is
`None` while `status.success()` is false. -/
inductive SpawnOutcome
  | spawnFail (cause : List Char)
  | exited (code : Int) (stdout stderr : List Char)
  | signaled (stdout stderr : List Char)
deriving DecidableEq

/-- The two `Error::new(format!(...))` sites of the executor, kept as
structured data: `spawnError` is the message
`"Failed to execute command {args[0]}: {e}"`, and `commandError` is the
message `"Command \x22{args[0]}\x22 failed ({code}): {stderr}"`. -/
inductive ExecError
  | spawnError (command cause : List Char)
  | commandError (command : List Char) (code : Int) (stderr : List Char)
deriving DecidableEq

/-- Outcome of `systemctl_execute_with_result`: the returned stdout, a
returned `Err`, or a Rust panic raised on the way. -/
inductive ExecOutcome
  | ok (stdout : List Char)
  | err (e : ExecError)
  | panic (msg : List Char)
deriving DecidableEq

/-- Outcome of the unit-returning twin `systemctl_execute`. -/
inductive ExecUnitOutcome
  | ok
  | err (e : ExecError)
  | panic (msg : List Char)
deriving DecidableEq

/-- `systemctl_execute_with_result` from src/controller/linux.rs lines 23-45.
A spawn failure is mapped to the spawn-error message and returned as `Err`.
On a non-success exit status the code builds the command-error message via
`output.status.code().expect("Process terminated by signal")`: when the
child was killed by a signal there is no code and that `expect` panics.
`args[0]` is read on the error paths; the contract requires `args` nonempty
(every call site passes a literal), modelled with `headI`. -/
def systemctl_execute_with_result (args : List (List Char)) (o : SpawnOutcome) : ExecOutcome :=
  match o with
  | .spawnFail cause => .err (.spawnError args.headI cause)
  | .exited code stdout stderr =>
    if code = 0 then .ok stdout
    else .err (.commandError args.headI code stderr)
  | .signaled _ _ => .panic (chars "Process terminated by signal")

/-- `systemctl_execute` from src/controller/linux.rs lines 47-69: the same
body as `systemctl_execute_with_result` with the stdout discarded. -/
def systemctl_execute (args : List (List Char)) (o : SpawnOutcome) : ExecUnitOutcome :=
  match systemctl_execute_with_result args o with
  | .ok _ => .ok
  | .err e => .err e
  | .panic m => .panic m

/-- True exactly on the panic outcome of the executor. -/
def isPanic : ExecOutcome → Bool
  | .panic _ => true
  | _ => false

/-- `ServiceStatus` from src/controller/linux.rs lines 126-132. -/
structure ServiceStatus where
  state : ServiceState
  cmdline : List Char
  pid : Nat
  is_failed : Bool
  details : List Char
deriving DecidableEq

/-- Errors `get_status` returns as `Err`: an executor error propagated by
`?`, or the inline `Error::new("Invalid ActiveState : {result}")`. -/
inductive StatusError
  | execError (e : ExecError)
  | invalidState (raw : List Char)
deriving DecidableEq

/-- Outcome of `get_status`: a `ServiceStatus`, an `Err`, or a panic. -/
inductive GetStatusOutcome
  | ok (st : ServiceStatus)
  | err (e : StatusError)
  | panic (msg : List Char)
deriving DecidableEq

/-- Environment of one `get_status` call: the three `systemctl` spawns it
performs, in program order, and the content of `/proc/{pid}/cmdline`
(`none` when `fs::read` fails because the process is gone). -/
structure GetStatusEnv where
  pidSpawn : SpawnOutcome
  isFailedSpawn : SpawnOutcome
  procCmdline : Option (List Char)
  statusSpawn : SpawnOutcome
deriving DecidableEq

/-- The message of a panicking `Result::unwrap`. -/
def unwrapPanicMsg : List Char := chars "called Result::unwrap on an Err value"

/-- `get_status` from src/controller/linux.rs lines 260-314, as a function of
its service name and environment.  Pipeline, in program order: query
`MainPID` and parse its numeric suffix with `.parse::<u32>().unwrap()` (a
parse failure panics); query `is-failed`, treating an `Err` as not failed;
read `/proc/{pid}/cmdline` with `.unwrap()` (a read failure panics; the
content is modelled as already-decoded text, leaving the utf8 unwrap aside);
query `status` and classify the text with `parse_state`. -/
def get_status (name : List Char) (env : GetStatusEnv) : GetStatusOutcome :=
  match systemctl_execute_with_result
      [chars "show", chars "-p", chars "MainPID", name] env.pidSpawn with
  | .panic m => .panic m
  | .err e => .err (.execError e)
  | .ok pidOut =>
    match parseU32 (trimChars (trimStartMatches (chars "MainPID=") pidOut)) with
    | none => .panic unwrapPanicMsg
    | some pid =>
      match systemctl_execute_with_result [chars "is-failed", name] env.isFailedSpawn with
      | .panic m => .panic m
      | failedRes =>
        let is_failed : Bool := match failedRes with
          | .ok ret => containsB ret (chars "failed")
          | _ => false
        match env.procCmdline with
        | none => .panic unwrapPanicMsg
        | some cmdline =>
          match systemctl_execute_with_result [chars "status", name] env.statusSpawn with
          | .panic m => .panic m
          | .err e => .err (.execError e)
          | .ok result =>
            match parse_state result with
            | .invalid raw => .err (.invalidState raw)
            | .ok state => .ok ⟨state, cmdline, pid, is_failed, result⟩

/-- Modelled from the spec: `session::Session_` (src/session.rs is not among
the provided sources) is an opaque identifier wrapper; two sessions are equal
exactly when their identifiers are equal (spec section 3).  `Session::new`
is the anonymous constructor. -/
structure Session where
  identifier : List Char
deriving DecidableEq

/-- `ServiceEvent<T>` from src/lib.rs lines 119-132. -/
inductive ServiceEvent (T : Type)
  | Continue
  | Pause
  | Stop
  | SessionConnect (s : Session)
  | SessionDisconnect (s : Session)
  | SessionRemoteConnect (s : Session)
  | SessionRemoteDisconnect (s : Session)
  | SessionLogon (s : Session)
  | SessionLogoff (s : Session)
  | SessionLock (s : Session)
  | SessionUnlock (s : Session)
  | Custom (t : T)
deriving DecidableEq

/-- One invocation of the callback `run_monitor` installs
(src/controller/linux.rs lines 330-360), as a function of the remembered
session and the freshly queried active session, each given by its
identifier (a failed query is already folded to `none` by the caller, lines
331-337).  Returns the events sent over `tx`, in send order, paired with
the new value of the `current_session` slot, which is overwritten with the
queried session unconditionally (line 359). -/
def run_monitor_callback (T : Type) (current active : Option (List Char)) :
    List (ServiceEvent T) × Option (List Char) :=
  let session_changed : Bool :=
    match current, active with
    | some c, some a => c != a
    | none, none => false
    | _, _ => true
  let events : List (ServiceEvent T) :=
    if session_changed then
      (match active with
        | some a => [ServiceEvent.SessionConnect ⟨a⟩]
        | none => []) ++
      (match current with
        | some c => [ServiceEvent.SessionDisconnect ⟨c⟩]
        | none => [])
    else []
  (events, active)

/-- Environment of one `delete` call: the three `systemctl` spawns reached
through `systemd_uninstall_daemon`, and the success of the two filesystem
removals (`fs::remove_file` on the unit file, `fs::remove_dir_all` on the
drop-in directory). -/
structure DeleteEnv where
  disableSpawn : SpawnOutcome
  daemonReloadSpawn : SpawnOutcome
  resetFailedSpawn : SpawnOutcome
  removeUnitFileOk : Bool
  removeDropinDirOk : Bool
deriving DecidableEq

/-- `systemd_uninstall_daemon` from src/controller/linux.rs lines 76-86:
`disable` is propagated with `?`; the failures of `daemon-reload` and
`reset-failed` are logged with `debug!` and dropped by `.ok()`. -/
def systemd_uninstall_daemon (name : List Char) (env : DeleteEnv) : ExecUnitOutcome :=
  match systemctl_execute [chars "disable", name] env.disableSpawn with
  | .panic m => .panic m
  | .err e => .err e
  | .ok =>
    match systemctl_execute [chars "daemon-reload"] env.daemonReloadSpawn with
    | .panic m => .panic m
    | _ =>
      match systemctl_execute [chars "reset-failed"] env.resetFailedSpawn with
      | .panic m => .panic m
      | _ => .ok

/-- `delete` from src/controller/linux.rs lines 236-250: unregister via
`systemd_uninstall_daemon` (propagated with `?`), then remove the unit file
and the drop-in directory, each failure logged with `debug!` and discarded
by `.ok()`, then return `Ok(())`. -/
def delete (name : List Char) (env : DeleteEnv) : ExecUnitOutcome :=
  match systemd_uninstall_daemon name env with
  | .panic m => .panic m
  | .err e => .err e
  | .ok =>
    let _ := env.removeUnitFileOk
    let _ := env.removeDropinDirOk
    .ok

/-- The substate markers the Active branch of `parse_state` matches, in
priority order `Running`, `Exited`, `Waiting`, `Dead`; note the leading
space in each literal (src/controller/linux.rs lines 279-286). -/
def activeMarker : ActiveState → List Char
  | .Running => chars " (running)"
  | .Exited => chars " (exited)"
  | .Waiting => chars " (waiting)"
  | .Dead => chars " (dead)"

/-- The substate markers the Inactive branch of `parse_state` matches, in
priority order `Dead`, `Exited`, `Waiting`, `Resetting`
(src/controller/linux.rs lines 297-304). -/
def inactiveMarker : InactiveState → List Char
  | .Dead => chars " (dead)"
  | .Exited => chars " (exited)"
  | .Waiting => chars " (waiting)"
  | .Resetting => chars " (resetting)"

/-- Environment for a `get_status` call against a dead unit that kept a
failure record: the status query prints `Active: inactive (dead)` and the
`is-failed` query succeeds printing `failed`. -/
def inactiveDeadEnv : GetStatusEnv :=
  ⟨SpawnOutcome.exited 0 (chars "MainPID=1234") [], SpawnOutcome.exited 0 (chars "failed") [],
    some (chars "/usr/bin/foo"), SpawnOutcome.exited 0 (chars "Active: inactive (dead)") []⟩

/-- Claim C1: the spec expects the raw status `Active: inactive (dead)` with
failed-flag true to yield `Inactive(Dead)`.  The code instead classifies it
into the Active branch and returns `Active(Dead)`, because the branch test
`result.contains("active (")` also matches the tail of `inactive (` — so the
Inactive branch is unreachable for any real systemctl status text, which
always spells the state as `inactive (...)`.  This theorem evaluates the
embedded `get_status` at the failing input. -/
theorem get_status_inactive_dead_misclassified :
    get_status (chars "foo") inactiveDeadEnv =
      GetStatusOutcome.ok
        ⟨ServiceState.Active ActiveState.Dead, chars "/usr/bin/foo", 1234, true,
          chars "Active: inactive (dead)"⟩ := by
  decide

/-- Claim C2: the monitor callback emits exactly the events of the session
transition table, in the stated order, for every pair of previous and
current sessions. -/
theorem monitor_transition_table (T : Type) (A B : List Char) :
    (run_monitor_callback T none none).1 = [] ∧
    (run_monitor_callback T none (some A)).1 = [ServiceEvent.SessionConnect ⟨A⟩] ∧
    (run_monitor_callback T (some A) none).1 = [ServiceEvent.SessionDisconnect ⟨A⟩] ∧
    (run_monitor_callback T (some A) (some A)).1 = [] ∧
    (A ≠ B → (run_monitor_callback T (some A) (some B)).1 =
      [ServiceEvent.SessionConnect ⟨B⟩, ServiceEvent.SessionDisconnect ⟨A⟩]) := by
  refine ⟨rfl, rfl, rfl, ?_, ?_⟩
  · simp [run_monitor_callback]
  · intro h
    simp [run_monitor_callback, bne_iff_ne, h]

/-- Claim C2 witness: the transition table applied to the concrete switch
from session `s1` to session `s2`. -/
theorem monitor_transition_table_witness :
    chars "s1" ≠ chars "s2" ∧
    (run_monitor_callback Unit (some (chars "s1")) (some (chars "s2"))).1 =
      [ServiceEvent.SessionConnect ⟨chars "s2"⟩, ServiceEvent.SessionDisconnect ⟨chars "s1"⟩] :=
  ⟨by decide,
    (monitor_transition_table Unit (chars "s1") (chars "s2")).2.2.2.2 (by decide)⟩

/-- Claim C3 counterexample: the text `active ((dead)` contains `active (`
and exactly one of the unspaced markers the claim enumerates, namely
`(dead)`, yet `parse_state` fails instead of returning `Active(Dead)` — the
code only matches the space-prefixed marker ` (dead)`, which this text lacks. -/
theorem parse_state_unspaced_marker_counterexample :
    containsB (chars "active ((dead)") (chars "active (") = true ∧
    containsB (chars "active ((dead)") (chars "(dead)") = true ∧
    containsB (chars "active ((dead)") (chars "(running)") = false ∧
    containsB (chars "active ((dead)") (chars "(exited)") = false ∧
    containsB (chars "active ((dead)") (chars "(waiting)") = false ∧
    parse_state (chars "active ((dead)") = ParseResult.invalid (chars "active ((dead)") := by
  decide

/-- Claim C3, amended: with the markers the code actually matches — the
space-prefixed ` (running)`, ` (exited)`, ` (waiting)`, ` (dead)` — every
status text containing `active (` and exactly one such marker parses to
`Active` of the matching substate, never any other. -/
theorem parse_state_active_unique_marker (s : List Char) (st : ActiveState)
    (hact : containsB s (chars "active (") = true)
    (hst : containsB s (activeMarker st) = true)
    (hothers : ∀ st2 : ActiveState, st2 ≠ st → containsB s (activeMarker st2) = false) :
    parse_state s = ParseResult.ok (ServiceState.Active st) := by
  cases st with
  | Running =>
    simp only [activeMarker] at hst
    simp [parse_state, hact, hst]
  | Exited =>
    have h1 := hothers .Running (by decide)
    simp only [activeMarker] at hst h1
    simp [parse_state, hact, hst, h1]
  | Waiting =>
    have h1 := hothers .Running (by decide)
    have h2 := hothers .Exited (by decide)
    simp only [activeMarker] at hst h1 h2
    simp [parse_state, hact, hst, h1, h2]
  | Dead =>
    have h1 := hothers .Running (by decide)
    have h2 := hothers .Exited (by decide)
    have h3 := hothers .Waiting (by decide)
    simp only [activeMarker] at hst h1 h2 h3
    simp [parse_state, hact, hst, h1, h2, h3]

/-- Claim C3 witness: a realistic running-service status line, carrying the
single marker ` (running)`, parses to `Active(Running)`. -/
theorem parse_state_active_unique_marker_witness :
    (containsB (chars "Active: active (running) since Mon") (chars "active (") = true ∧
      containsB (chars "Active: active (running) since Mon") (activeMarker .Running) = true ∧
      (∀ st2 : ActiveState, st2 ≠ .Running →
        containsB (chars "Active: active (running) since Mon") (activeMarker st2) = false)) ∧
    parse_state (chars "Active: active (running) since Mon") =
      ParseResult.ok (ServiceState.Active .Running) :=
  ⟨⟨by decide, by decide, by decide⟩,
    parse_state_active_unique_marker (chars "Active: active (running) since Mon") .Running
      (by decide) (by decide) (by decide)⟩

/-- Claim C4: when no recognized substate marker of the selected top-level
branch occurs in the status text, `parse_state` fails carrying the raw text
and never falls back to a default state. -/
theorem parse_state_no_marker_invalid (s : List Char)
    (hA : containsB s (chars "active (") = true →
      ∀ st : ActiveState, containsB s (activeMarker st) = false)
    (hI : containsB s (chars "active (") = false →
      ∀ st : InactiveState, containsB s (inactiveMarker st) = false) :
    parse_state s = ParseResult.invalid s := by
  cases hB : containsB s (chars "active (") with
  | true =>
    have h1 := hA hB .Running
    have h2 := hA hB .Exited
    have h3 := hA hB .Waiting
    have h4 := hA hB .Dead
    simp only [activeMarker] at h1 h2 h3 h4
    simp [parse_state, hB, h1, h2, h3, h4]
  | false =>
    have h1 := hI hB .Dead
    have h2 := hI hB .Exited
    have h3 := hI hB .Waiting
    have h4 := hI hB .Resetting
    simp only [inactiveMarker] at h1 h2 h3 h4
    simp [parse_state, hB, h1, h2, h3, h4]

/-- Claim C4 witness: the marker-free text `Unit foo could not be found.`
selects the Inactive branch and makes `parse_state` fail. -/
theorem parse_state_no_marker_invalid_witness :
    ((containsB (chars "Unit foo could not be found.") (chars "active (") = true →
        ∀ st : ActiveState,
          containsB (chars "Unit foo could not be found.") (activeMarker st) = false) ∧
      (containsB (chars "Unit foo could not be found.") (chars "active (") = false →
        ∀ st : InactiveState,
          containsB (chars "Unit foo could not be found.") (inactiveMarker st) = false)) ∧
    parse_state (chars "Unit foo could not be found.") =
      ParseResult.invalid (chars "Unit foo could not be found.") :=
  ⟨⟨by decide, by decide⟩,
    parse_state_no_marker_invalid (chars "Unit foo could not be found.")
      (by decide) (by decide)⟩

/-- Environment in which the `MainPID` query succeeds but prints a value
whose suffix is not a number. -/
def malformedPidEnv : GetStatusEnv :=
  ⟨SpawnOutcome.exited 0 (chars "MainPID=abc") [], SpawnOutcome.exited 1 [] [],
    some [], SpawnOutcome.exited 0 [] []⟩

/-- Claim C5 counterexample: with the pid query printing `MainPID=abc`,
`get_status` panics — `.parse::<u32>().unwrap()` at
src/controller/linux.rs line 265 — instead of returning a malformed-pid
error value as the claim states. -/
theorem get_status_malformed_pid_counterexample :
    get_status (chars "foo") malformedPidEnv = GetStatusOutcome.panic unwrapPanicMsg := by
  decide

/-- Claim C5, amended: whenever the pid query succeeds but its value after
stripping `MainPID=` and trimming is not a valid u32, `get_status` panics
on the unwrapped parse instead of returning an error value. -/
theorem get_status_malformed_pid_panics (name : List Char) (env : GetStatusEnv)
    (out : List Char)
    (hok : systemctl_execute_with_result [chars "show", chars "-p", chars "MainPID", name]
      env.pidSpawn = ExecOutcome.ok out)
    (hbad : parseU32 (trimChars (trimStartMatches (chars "MainPID=") out)) = none) :
    get_status name env = GetStatusOutcome.panic unwrapPanicMsg := by
  simp only [get_status, hok, hbad]

/-- Claim C5 witness: the amended theorem applied to the concrete
environment whose pid query prints `MainPID=abc`. -/
theorem get_status_malformed_pid_panics_witness :
    (systemctl_execute_with_result [chars "show", chars "-p", chars "MainPID", chars "foo"]
        malformedPidEnv.pidSpawn = ExecOutcome.ok (chars "MainPID=abc") ∧
      parseU32 (trimChars (trimStartMatches (chars "MainPID=") (chars "MainPID=abc"))) = none) ∧
    get_status (chars "foo") malformedPidEnv = GetStatusOutcome.panic unwrapPanicMsg :=
  ⟨⟨by decide, by decide⟩,
    get_status_malformed_pid_panics (chars "foo") malformedPidEnv (chars "MainPID=abc")
      (by decide) (by decide)⟩

/-- Environment in which every query succeeds but the process vanished
before `/proc/1234/cmdline` could be read. -/
def processGoneEnv : GetStatusEnv :=
  ⟨SpawnOutcome.exited 0 (chars "MainPID=1234") [], SpawnOutcome.exited 1 [] [],
    none, SpawnOutcome.exited 0 (chars "Active: active (running)") []⟩

/-- Claim C6 counterexample: when the cmdline read fails because the
process is gone, `get_status` panics — `read(...).unwrap()` at
src/controller/linux.rs line 274 — instead of returning a process-gone
error value as the claim states. -/
theorem get_status_process_gone_counterexample :
    get_status (chars "foo") processGoneEnv = GetStatusOutcome.panic unwrapPanicMsg := by
  decide

/-- Claim C6, amended: whenever the pid query yields a parseable pid, the
failed-flag query does not itself panic, and the cmdline read fails,
`get_status` panics on the unwrapped read instead of returning an error
value or an empty cmdline. -/
theorem get_status_cmdline_read_panics (name : List Char) (env : GetStatusEnv)
    (out : List Char) (pid : Nat)
    (hok : systemctl_execute_with_result [chars "show", chars "-p", chars "MainPID", name]
      env.pidSpawn = ExecOutcome.ok out)
    (hpid : parseU32 (trimChars (trimStartMatches (chars "MainPID=") out)) = some pid)
    (hnp : isPanic (systemctl_execute_with_result [chars "is-failed", name] env.isFailedSpawn)
      = false)
    (hgone : env.procCmdline = none) :
    get_status name env = GetStatusOutcome.panic unwrapPanicMsg := by
  simp only [get_status, hok, hpid]
  cases hF : systemctl_execute_with_result [chars "is-failed", name] env.isFailedSpawn with
  | panic m =>
    rw [hF] at hnp
    simp [isPanic] at hnp
  | ok ret => simp [hgone]
  | err e => simp [hgone]

/-- Claim C6 witness: the amended theorem applied to the concrete
environment with a vanished process. -/
theorem get_status_cmdline_read_panics_witness :
    (systemctl_execute_with_result [chars "show", chars "-p", chars "MainPID", chars "foo"]
        processGoneEnv.pidSpawn = ExecOutcome.ok (chars "MainPID=1234") ∧
      parseU32 (trimChars (trimStartMatches (chars "MainPID=") (chars "MainPID=1234"))) =
        some 1234 ∧
      isPanic (systemctl_execute_with_result [chars "is-failed", chars "foo"]
        processGoneEnv.isFailedSpawn) = false ∧
      processGoneEnv.procCmdline = none) ∧
    get_status (chars "foo") processGoneEnv = GetStatusOutcome.panic unwrapPanicMsg :=
  ⟨⟨by decide, by decide, by decide, by decide⟩,
    get_status_cmdline_read_panics (chars "foo") processGoneEnv (chars "MainPID=1234") 1234
      (by decide) (by decide) (by decide) (by decide)⟩

/-- Claim C7 counterexample: a signal-terminated `systemctl status` child
makes the executor panic — `output.status.code().expect(...)` at
src/controller/linux.rs line 35 — instead of producing a command error as
the claim states. -/
theorem executor_signal_counterexample :
    systemctl_execute_with_result [chars "status", chars "foo"]
      (SpawnOutcome.signaled [] (chars "Killed")) =
      ExecOutcome.panic (chars "Process terminated by signal") := by
  decide

/-- Claim C7, amended: for every invocation whose child is terminated by a
signal, both executors panic with the expect message
`Process terminated by signal` and never produce an error value. -/
theorem executor_signal_panics (args : List (List Char)) (stdout stderr : List Char) :
    systemctl_execute_with_result args (SpawnOutcome.signaled stdout stderr) =
      ExecOutcome.panic (chars "Process terminated by signal") ∧
    systemctl_execute args (SpawnOutcome.signaled stdout stderr) =
      ExecUnitOutcome.panic (chars "Process terminated by signal") :=
  ⟨rfl, rfl⟩

/-- Claim C8: a spawn failure makes the executor return the spawn-error
message built from the first argument and the io cause — by determinism of
the function this is never the command-error shape. -/
theorem executor_spawn_error (a cause : List Char) (rest : List (List Char)) :
    systemctl_execute_with_result (a :: rest) (SpawnOutcome.spawnFail cause) =
      ExecOutcome.err (ExecError.spawnError a cause) :=
  rfl

/-- Claim C9: whenever the unregister step `systemd_uninstall_daemon`
succeeds, `delete` returns ok, whatever the outcome of the descriptor
removals recorded in the environment. -/
theorem delete_ok_despite_removal_failures (name : List Char) (env : DeleteEnv)
    (h : systemd_uninstall_daemon name env = ExecUnitOutcome.ok) :
    delete name env = ExecUnitOutcome.ok := by
  simp only [delete, h]

/-- Claim C9 witness: a run where `daemon-reload`, `reset-failed` and both
filesystem removals fail while `disable` succeeds still returns ok. -/
theorem delete_ok_despite_removal_failures_witness :
    systemd_uninstall_daemon (chars "foo")
      ⟨SpawnOutcome.exited 0 [] [], SpawnOutcome.exited 1 [] (chars "busy"),
        SpawnOutcome.exited 1 [] (chars "busy"), false, false⟩ = ExecUnitOutcome.ok ∧
    delete (chars "foo")
      ⟨SpawnOutcome.exited 0 [] [], SpawnOutcome.exited 1 [] (chars "busy"),
        SpawnOutcome.exited 1 [] (chars "busy"), false, false⟩ = ExecUnitOutcome.ok :=
  ⟨by decide,
    delete_ok_despite_removal_failures (chars "foo")
      ⟨SpawnOutcome.exited 0 [] [], SpawnOutcome.exited 1 [] (chars "busy"),
        SpawnOutcome.exited 1 [] (chars "busy"), false, false⟩ (by decide)⟩

/-- Claim C10: when the `is-failed` query returns an error, `get_status`
does not propagate it: the resulting status carries `is_failed = false` and
the call still succeeds when the remaining queries do. -/
theorem get_status_is_failed_query_failure_nonfatal (name : List Char) (env : GetStatusEnv)
    (out : List Char) (pid : Nat) (e : ExecError) (cmdline result : List Char)
    (state : ServiceState)
    (hok : systemctl_execute_with_result [chars "show", chars "-p", chars "MainPID", name]
      env.pidSpawn = ExecOutcome.ok out)
    (hpid : parseU32 (trimChars (trimStartMatches (chars "MainPID=") out)) = some pid)
    (hfail : systemctl_execute_with_result [chars "is-failed", name] env.isFailedSpawn =
      ExecOutcome.err e)
    (hcmd : env.procCmdline = some cmdline)
    (hst : systemctl_execute_with_result [chars "status", name] env.statusSpawn =
      ExecOutcome.ok result)
    (hparse : parse_state result = ParseResult.ok state) :
    get_status name env = GetStatusOutcome.ok ⟨state, cmdline, pid, false, result⟩ := by
  simp only [get_status, hok, hpid, hfail, hcmd, hst, hparse]

/-- Environment in which the `is-failed` query exits nonzero (as systemctl
does for a unit that is not failed) while every other query succeeds. -/
def isFailedErrEnv : GetStatusEnv :=
  ⟨SpawnOutcome.exited 0 (chars "MainPID=7") [], SpawnOutcome.exited 1 (chars "active") [],
    some (chars "/bin/x"), SpawnOutcome.exited 0 (chars "Active: active (running)") []⟩

/-- Claim C10 witness: the theorem applied to the concrete environment with
a failing `is-failed` query; the call succeeds with `is_failed = false`. -/
theorem get_status_is_failed_query_failure_nonfatal_witness :
    (systemctl_execute_with_result [chars "show", chars "-p", chars "MainPID", chars "foo"]
        isFailedErrEnv.pidSpawn = ExecOutcome.ok (chars "MainPID=7") ∧
      parseU32 (trimChars (trimStartMatches (chars "MainPID=") (chars "MainPID=7"))) = some 7 ∧
      systemctl_execute_with_result [chars "is-failed", chars "foo"] isFailedErrEnv.isFailedSpawn =
        ExecOutcome.err (ExecError.commandError (chars "is-failed") 1 []) ∧
      isFailedErrEnv.procCmdline = some (chars "/bin/x") ∧
      systemctl_execute_with_result [chars "status", chars "foo"] isFailedErrEnv.statusSpawn =
        ExecOutcome.ok (chars "Active: active (running)") ∧
      parse_state (chars "Active: active (running)") =
        ParseResult.ok (ServiceState.Active ActiveState.Running)) ∧
    get_status (chars "foo") isFailedErrEnv =
      GetStatusOutcome.ok
        ⟨ServiceState.Active ActiveState.Running, chars "/bin/x", 7, false,
          chars "Active: active (running)"⟩ :=
  ⟨⟨by decide, by decide, by decide, by decide, by decide, by decide⟩,
    get_status_is_failed_query_failure_nonfatal (chars "foo") isFailedErrEnv (chars "MainPID=7")
      7 (ExecError.commandError (chars "is-failed") 1 []) (chars "/bin/x")
      (chars "Active: active (running)") (ServiceState.Active ActiveState.Running)
      (by decide) (by decide) (by decide) (by decide) (by decide) (by decide)⟩

end Ceviche
